import Mathlib

/-!
Verification of the AX.25 KISS interface (RNS/Interfaces/AX25KISSInterface.py).

The development shallowly embeds the frame codec, the address codec, the
byte-at-a-time reader state machine, the flow-control transmit queue and the
constructor validation of the Python source.  Bytes are modelled as `Nat`,
byte strings as `List Nat`, and the mutable interface object as an explicit
state record threaded through the transition functions.
-/

/-- KISS frame delimiter byte (`KISS.FEND`). -/
def FEND : Nat := 0xC0

/-- KISS escape byte (`KISS.FESC`). -/
def FESC : Nat := 0xDB

/-- Transposed frame delimiter (`KISS.TFEND`). -/
def TFEND : Nat := 0xDC

/-- Transposed escape byte (`KISS.TFESC`). -/
def TFESC : Nat := 0xDD

/-- Sentinel for an unknown command (`KISS.CMD_UNKNOWN`). -/
def CMD_UNKNOWN : Nat := 0xFE

/-- Data-frame command (`KISS.CMD_DATA`). -/
def CMD_DATA : Nat := 0x00

/-- Ready-signal command (`KISS.CMD_READY`). -/
def CMD_READY : Nat := 0x0F

/-- AX.25 control byte for unnumbered information (`AX25.CTRL_UI`). -/
def CTRL_UI : Nat := 0x03

/-- AX.25 protocol id "no layer 3" (`AX25.PID_NOLAYER3`). -/
def PID_NOLAYER3 : Nat := 0xF0

/-- Size of the AX.25 address header (`AX25.HEADER_SIZE`). -/
def HEADER_SIZE : Nat := 16

/-- Hardware MTU set in the constructor (`self.HW_MTU = 564`). -/
def HW_MTU : Nat := 564

/-- Reader idle timeout in milliseconds (`self.timeout = 100`). -/
def default_timeout : Nat := 100

/-- `bytes.replace` for a single-byte needle: every occurrence of `old` is
replaced by the byte string `new`. -/
def replace1 (old : Nat) (new : List Nat) : List Nat → List Nat
  | [] => []
  | b :: rest => (if b = old then new else [b]) ++ replace1 old new rest

/-- `KISS.escape` / the inline escaping in `process_outgoing`: first replace
every `0xDB` with `0xDB 0xDD`, then every `0xC0` with `0xDB 0xDC`. -/
def escape (data : List Nat) : List Nat :=
  replace1 FEND [FESC, TFEND] (replace1 FESC [FESC, TFESC] data)

/-- Per-byte escaping; `escape` is proved equal to `List.flatMap escByte`. -/
def escByte (b : Nat) : List Nat :=
  if b = FESC then [FESC, TFESC]
  else if b = FEND then [FESC, TFEND]
  else [b]

/-- The 6-byte callsign field of `process_outgoing`: for `i` in `0..5` emit
the character code shifted left one bit when the callsign has an `i`-th
character and the literal byte `0x20` otherwise. -/
def encode_call_field (call : List Nat) : List Nat :=
  (List.range 6).map (fun i => if i < call.length then call.getD i 0 <<< 1 else 0x20)

/-- Fixed destination callsign `"APZRNS"` (ASCII codes). -/
def dst_call : List Nat := [0x41, 0x50, 0x5A, 0x52, 0x4E, 0x53]

/-- Fixed destination SSID. -/
def dst_ssid : Nat := 0

/-- The 16-byte AX.25 address header built by `process_outgoing`:
destination field, destination SSID byte, source field, source SSID byte,
control byte, protocol id byte. -/
def ax25Header (dst : List Nat) (dssid : Nat) (src : List Nat) (sssid : Nat) : List Nat :=
  encode_call_field dst ++ [0x60 ||| (dssid <<< 1)] ++
  encode_call_field src ++ [0x60 ||| (sssid <<< 1) ||| 0x01] ++
  [CTRL_UI, PID_NOLAYER3]

/-- The complete outbound KISS frame (`kiss_frame` in `process_outgoing`):
delimiter, data command byte, escaped header-plus-payload, delimiter. -/
def kissFrame (src : List Nat) (sssid : Nat) (data : List Nat) : List Nat :=
  FEND :: CMD_DATA :: escape (ax25Header dst_call dst_ssid src sssid ++ data) ++ [FEND]

/-- Mutable state of one `AX25KISSInterface` object together with the local
variables of its `readLoop`. -/
structure IfaceState where
  in_frame : Bool
  escFlag : Bool
  command : Nat
  data_buffer : List Nat
  online : Bool
  interface_ready : Bool
  flow_control : Bool
  packet_queue : List (List Nat)
  src_call : List Nat
  src_ssid : Nat
  deriving Repr, DecidableEq

/-- `process_outgoing`: when online and ready, build and write the framed
data (clearing the ready flag first when flow control is on); a short write
restores the ready flag under flow control and raises.  When not ready the
payload is appended to the transmit queue.  `wr` models the transport's
return value for a write of the given bytes.  Returns the new state, the
frames passed to the transport write, and whether an IOError was raised. -/
def process_outgoing (wr : List Nat → Nat) (s : IfaceState) (data : List Nat) :
    IfaceState × List (List Nat) × Bool :=
  if s.online then
    if s.interface_ready then
      let s1 := if s.flow_control then { s with interface_ready := false } else s
      let frame := kissFrame s.src_call s.src_ssid data
      if wr frame ≠ frame.length then
        (if s1.flow_control then { s1 with interface_ready := true } else s1, [frame], true)
      else
        (s1, [frame], false)
    else
      ({ s with packet_queue := s.packet_queue ++ [data] }, [], false)
  else
    (s, [], false)

/-- `process_queue`: pop the oldest queued payload, mark the interface ready
and send it; with an empty queue just mark the interface ready. -/
def process_queue (wr : List Nat → Nat) (s : IfaceState) :
    IfaceState × List (List Nat) × Bool :=
  match s.packet_queue with
  | [] => ({ s with interface_ready := true }, [], false)
  | data :: rest =>
      process_outgoing wr { s with packet_queue := rest, interface_ready := true } data

/-- A transport write that always accepts every byte. -/
def wrFull : List Nat → Nat := List.length

/-- One iteration of the `readLoop` body for an available input byte.
Returns the new state, the payloads delivered to `owner.inbound` (via
`process_incoming`, which strips the 16-byte header and only delivers
buffers longer than the header), and the frames written by a triggered
queue drain. -/
def readByte (s : IfaceState) (b : Nat) :
    IfaceState × List (List Nat) × List (List Nat) :=
  if s.in_frame = true ∧ b = FEND ∧ s.command = CMD_DATA then
    ({ s with in_frame := false },
     if HEADER_SIZE < s.data_buffer.length then [s.data_buffer.drop HEADER_SIZE] else [],
     [])
  else if b = FEND then
    ({ s with in_frame := true, command := CMD_UNKNOWN, data_buffer := [] }, [], [])
  else if s.in_frame = true ∧ s.data_buffer.length < HW_MTU + HEADER_SIZE then
    if s.data_buffer.length = 0 ∧ s.command = CMD_UNKNOWN then
      ({ s with command := Nat.land b 0x0F }, [], [])
    else if s.command = CMD_DATA then
      if b = FESC then
        ({ s with escFlag := true }, [], [])
      else
        let b1 := if s.escFlag then (if b = TFEND then FEND else if b = TFESC then FESC else b) else b
        ({ s with escFlag := false, data_buffer := s.data_buffer ++ [b1] }, [], [])
    else if s.command = CMD_READY then
      let r := process_queue wrFull s
      (r.1, [], r.2.1)
    else
      (s, [], [])
  else
    (s, [], [])

/-- Run the reader over a byte list, accumulating inbound deliveries and
transport writes in order. -/
def runReader (s : IfaceState) : List Nat → IfaceState × List (List Nat) × List (List Nat)
  | [] => (s, [], [])
  | b :: rest =>
      let r1 := readByte s b
      let r2 := runReader r1.1 rest
      (r2.1, r1.2.1 ++ r2.2.1, r1.2.2 ++ r2.2.2)

/-- The idle-timeout check of `readLoop` when no input is available:
`elapsed` milliseconds have passed since the last byte; when the buffer is
non-empty and the timeout is exceeded, the buffer is discarded and the
reader reset. -/
def timeoutCheck (s : IfaceState) (timeout elapsed : Nat) : IfaceState :=
  if 0 < s.data_buffer.length ∧ timeout < elapsed then
    { s with data_buffer := [], in_frame := false, command := CMD_UNKNOWN, escFlag := false }
  else
    s

/-- Errors raised during `__init__` before the serial port is touched. -/
inductive InitError where
  | missingPort
  | invalidCallsign
  | invalidSSID
  deriving Repr, DecidableEq

/-- Outcome of running `__init__` up to the `open_port` call: the
configuration error raised, if any, and whether the transport open was
reached. -/
structure InitOutcome where
  error : Option InitError
  open_attempted : Bool
  deriving Repr, DecidableEq

/-- The validation sequence of `__init__`, in source order: missing port,
then callsign length outside 3..6, then SSID outside 0..15; only when all
checks pass is `open_port` attempted. -/
def ax25_init (has_port : Bool) (callsign : List Nat) (ssid : Int) : InitOutcome :=
  if has_port = false then ⟨some InitError.missingPort, false⟩
  else if callsign.length < 3 ∨ callsign.length > 6 then ⟨some InitError.invalidCallsign, false⟩
  else if ssid < 0 ∨ ssid > 15 then ⟨some InitError.invalidSSID, false⟩
  else ⟨none, true⟩

/-- Helper for `noUnescaped`: scan with a flag recording whether the
previous byte was an unconsumed escape byte.  A delimiter byte, an escape
byte not followed by a transposed byte, and a trailing escape byte all make
the scan fail. -/
def noUnescapedAux : Bool → List Nat → Bool
  | false, [] => true
  | true, [] => false
  | e, b :: rest =>
    if e then (b == TFEND || b == TFESC) && noUnescapedAux false rest
    else if b = FEND then false
    else if b = FESC then noUnescapedAux true rest
    else noUnescapedAux false rest

/-- `noUnescaped l = true` when `l` contains no delimiter byte and every
escape byte in `l` is immediately followed by a transposed-delimiter or
transposed-escape byte (so no reserved byte occurs unescaped). -/
def noUnescaped (l : List Nat) : Bool := noUnescapedAux false l

/-- Modelled from the spec (amended reading): the 6-byte callsign field as
"left-shifting each identifier character's code by one bit, space-padding
on the right if the identifier is shorter than 6 characters", with the pad
byte being the space character itself. -/
def callFieldFromSpec (call : List Nat) : List Nat :=
  (call.take 6).map (fun c => c <<< 1) ++ List.replicate (6 - call.length) 0x20

/-- Modelled from the claim's words: like `callFieldFromSpec` but with the
pad positions "equal to the space character shifted one bit". -/
def callFieldFromClaim (call : List Nat) : List Nat :=
  (call.take 6).map (fun c => c <<< 1) ++ List.replicate (6 - call.length) (0x20 <<< 1)

/-- Modelled from the spec (amended reading): the full 16-byte header as
the spec describes it, with plain-space padding. -/
def headerFromSpec (dst : List Nat) (dssid : Nat) (src : List Nat) (sssid : Nat) : List Nat :=
  callFieldFromSpec dst ++ [0x60 ||| (dssid <<< 1)] ++
  callFieldFromSpec src ++ [0x60 ||| (sssid <<< 1) ||| 0x01] ++
  [CTRL_UI, PID_NOLAYER3]

/-- Modelled from the claim's words: the full 16-byte header with the pad
positions equal to the space character shifted one bit. -/
def headerFromClaim (dst : List Nat) (dssid : Nat) (src : List Nat) (sssid : Nat) : List Nat :=
  callFieldFromClaim dst ++ [0x60 ||| (dssid <<< 1)] ++
  callFieldFromClaim src ++ [0x60 ||| (sssid <<< 1) ||| 0x01] ++
  [CTRL_UI, PID_NOLAYER3]

/-- The interface state right after `configure_device` completed and the
`readLoop` local variables were initialised, for a valid three-character
callsign with SSID 0 and flow control disabled. -/
def startState : IfaceState :=
  { in_frame := false
    escFlag := false
    command := CMD_UNKNOWN
    data_buffer := []
    online := true
    interface_ready := true
    flow_control := false
    packet_queue := []
    src_call := [0x41, 0x42, 0x43]
    src_ssid := 0 }

/-- `startState` with flow control enabled, the ready flag cleared (a frame
is in flight) and the given transmit queue. -/
def queuedState (q : List (List Nat)) : IfaceState :=
  { startState with interface_ready := false, flow_control := true, packet_queue := q }

/-- `startState` while inside a frame with the given command and buffer. -/
def inFrameState (cmd : Nat) (buf : List Nat) : IfaceState :=
  { startState with in_frame := true, command := cmd, data_buffer := buf }

/-- `queuedState` while inside a frame with the given command. -/
def queuedInFrame (cmd : Nat) (q : List (List Nat)) : IfaceState :=
  { queuedState q with in_frame := true, command := cmd }

/-- One atomic state change of the interface object: an outbound send, one
reader byte, a flow-control queue drain (ready command or failsafe
timeout), the idle-timeout check, the reader loop dying on a transport
error, or a reconnect re-running `configure_device` and restarting the
reader loop. -/
inductive Step : IfaceState → IfaceState → Prop where
  | outgoing {s : IfaceState} (data : List Nat) (wr : List Nat → Nat) :
      Step s (process_outgoing wr s data).1
  | rcv {s : IfaceState} (b : Nat) : Step s (readByte s b).1
  | drain {s : IfaceState} (wr : List Nat → Nat) : Step s (process_queue wr s).1
  | idleTimeout {s : IfaceState} (t e : Nat) : Step s (timeoutCheck s t e)
  | goOffline {s : IfaceState} : Step s { s with online := false }
  | reconnect {s : IfaceState} :
      Step s { s with online := true, interface_ready := true, in_frame := false,
                      escFlag := false, command := CMD_UNKNOWN, data_buffer := [] }

/-- States reachable from `s0` by any interleaving of interface steps. -/
def Reach (s0 s : IfaceState) : Prop := Relation.ReflTransGen Step s0 s

theorem replace1_append (old : Nat) (new l1 l2 : List Nat) :
    replace1 old new (l1 ++ l2) = replace1 old new l1 ++ replace1 old new l2 := by
  induction l1 with
  | nil => rfl
  | cons b rest ih => simp [replace1, ih]

theorem escape_cons (b : Nat) (rest : List Nat) :
    escape (b :: rest) = escByte b ++ escape rest := by
  simp only [escape, replace1]
  rw [replace1_append]
  by_cases h1 : b = FESC
  · subst h1
    simp [replace1, escByte, FESC, FEND, TFESC]
  · by_cases h2 : b = FEND
    · subst h2
      simp [replace1, escByte, FESC, FEND, TFEND]
    · simp [replace1, escByte, h1, h2]

theorem escape_eq_flatMap (l : List Nat) : escape l = l.flatMap escByte := by
  induction l with
  | nil => rfl
  | cons b rest ih => rw [escape_cons, List.flatMap_cons, ih]

theorem fend_not_mem_escape (l : List Nat) : FEND ∉ escape l := by
  induction l with
  | nil => simp [escape, replace1]
  | cons b rest ih =>
    rw [escape_cons]
    intro hmem
    rcases List.mem_append.mp hmem with h | h
    · by_cases h1 : b = FESC
      · subst h1; simp [escByte, FESC, FEND, TFESC] at h
      · by_cases h2 : b = FEND
        · subst h2; simp [escByte, FESC, FEND, TFEND] at h
        · simp [escByte, h1, h2] at h; exact h2 h.symm
    · exact ih h

theorem noUnescaped_escape (l : List Nat) : noUnescaped (escape l) = true := by
  rw [escape_eq_flatMap]
  unfold noUnescaped
  induction l with
  | nil => rfl
  | cons b rest ih =>
    rw [List.flatMap_cons]
    by_cases h1 : b = FESC
    · subst h1; simpa [escByte, noUnescapedAux, FESC, FEND, TFEND, TFESC] using ih
    · by_cases h2 : b = FEND
      · subst h2; simpa [escByte, noUnescapedAux, FESC, FEND, TFEND, TFESC] using ih
      · simpa [escByte, noUnescapedAux, h1, h2] using ih

theorem encode_call_field_length (call : List Nat) :
    (encode_call_field call).length = 6 := by
  simp [encode_call_field]

theorem ax25Header_length (dst src : List Nat) (d ss : Nat) :
    (ax25Header dst d src ss).length = 16 := by
  simp [ax25Header, encode_call_field]

theorem runReader_append (s : IfaceState) (l1 l2 : List Nat) :
    runReader s (l1 ++ l2) =
      ((runReader (runReader s l1).1 l2).1,
       (runReader s l1).2.1 ++ (runReader (runReader s l1).1 l2).2.1,
       (runReader s l1).2.2 ++ (runReader (runReader s l1).1 l2).2.2) := by
  induction l1 generalizing s with
  | nil => simp [runReader]
  | cons b rest ih => simp [runReader, ih, List.append_assoc]

theorem runReader_escByte (s : IfaceState) (b : Nat)
    (hin : s.in_frame = true) (hesc : s.escFlag = false) (hcmd : s.command = CMD_DATA)
    (hlen : s.data_buffer.length < HW_MTU + HEADER_SIZE) :
    runReader s (escByte b) =
      ({ s with escFlag := false, data_buffer := s.data_buffer ++ [b] }, [], []) := by
  obtain ⟨f1, f2, f3, f4, f5, f6, f7, f8, f9, f10⟩ := s
  simp only at hin hesc hcmd hlen
  subst hin hesc hcmd
  by_cases h1 : b = (0xDB : Nat)
  · subst h1
    simp [escByte, runReader, readByte, hlen, FESC, FEND, TFESC, TFEND,
          CMD_DATA, CMD_UNKNOWN]
  · by_cases h2 : b = (0xC0 : Nat)
    · subst h2
      simp [escByte, runReader, readByte, hlen, FESC, FEND, TFESC, TFEND,
            CMD_DATA, CMD_UNKNOWN]
    · simp [escByte, runReader, readByte, hlen, h1, h2, FESC, FEND, TFESC, TFEND,
            CMD_DATA, CMD_UNKNOWN]

theorem runReader_flatMap_escByte (L : List Nat) : ∀ (s : IfaceState),
    s.in_frame = true → s.escFlag = false → s.command = CMD_DATA →
    s.data_buffer.length + L.length ≤ HW_MTU + HEADER_SIZE →
    runReader s (L.flatMap escByte) =
      ({ s with data_buffer := s.data_buffer ++ L }, [], []) := by
  induction L with
  | nil =>
    intro s h1 h2 h3 _
    simp [runReader]
  | cons b rest ih =>
    intro s h1 h2 h3 hlen
    have hstep := runReader_escByte s b h1 h2 h3 (by simp at hlen; omega)
    have hrest := ih { s with escFlag := false, data_buffer := s.data_buffer ++ [b] }
      (by simpa using h1) (by simp) (by simpa using h3) (by simp at hlen ⊢; omega)
    rw [List.flatMap_cons, runReader_append, hstep]
    simp only at hrest ⊢
    rw [hrest]
    simp [h2]

theorem flatMap_escByte_eq_self (L : List Nat)
    (h : ∀ b ∈ L, b ≠ FEND ∧ b ≠ FESC) : L.flatMap escByte = L := by
  induction L with
  | nil => rfl
  | cons b rest ih =>
    rw [List.flatMap_cons, ih (fun c hc => h c (List.mem_cons_of_mem _ hc))]
    have hb := h b (List.mem_cons_self _ _)
    simp [escByte, hb.1, hb.2]

theorem runReader_full_buffer (L : List Nat) : ∀ (s : IfaceState),
    s.in_frame = true → (∀ b ∈ L, b ≠ FEND) →
    ¬(s.data_buffer.length < HW_MTU + HEADER_SIZE) →
    runReader s L = (s, [], []) := by
  induction L with
  | nil => intro s _ _ _; rfl
  | cons b rest ih =>
    intro s hin hclean hlen
    have hb : b ≠ FEND := hclean b (List.mem_cons_self _ _)
    have hstep : readByte s b = (s, [], []) := by
      simp [readByte, hin, hb, hlen]
    simp [runReader, hstep,
          ih s hin (fun c hc => hclean c (List.mem_cons_of_mem _ hc)) hlen]

theorem runReader_nil (s : IfaceState) : runReader s [] = (s, [], []) := rfl

theorem runReader_cons (s : IfaceState) (b : Nat) (rest : List Nat) :
    runReader s (b :: rest) =
      ((runReader (readByte s b).1 rest).1,
       (readByte s b).2.1 ++ (runReader (readByte s b).1 rest).2.1,
       (readByte s b).2.2 ++ (runReader (readByte s b).1 rest).2.2) := rfl

/-- C1 (amended): for every non-empty payload `P` of at most `HW_MTU` bytes,
feeding the reader the exact bytes of the built data frame for `P` produces
exactly one inbound delivery, whose payload is `P`. -/
theorem c1_roundtrip_amended (src : List Nat) (sssid : Nat) (P : List Nat)
    (hne : P ≠ []) (hlen : P.length ≤ HW_MTU) :
    (runReader startState (kissFrame src sssid P)).2.1 = [P] := by
  have hHlen : (ax25Header dst_call dst_ssid src sssid).length = 16 :=
    ax25Header_length _ _ _ _
  have hstep1 : readByte startState FEND = (inFrameState CMD_UNKNOWN [], [], []) := by
    decide
  have hstep2 : readByte (inFrameState CMD_UNKNOWN []) CMD_DATA =
      (inFrameState CMD_DATA [], [], []) := by decide
  have hbound : (inFrameState CMD_DATA []).data_buffer.length +
      (ax25Header dst_call dst_ssid src sssid ++ P).length ≤ HW_MTU + HEADER_SIZE := by
    simp only [inFrameState, startState, List.length_nil, List.length_append, hHlen]
    simp only [HW_MTU, HEADER_SIZE] at hlen ⊢
    omega
  have hmid : runReader (inFrameState CMD_DATA [])
      ((ax25Header dst_call dst_ssid src sssid ++ P).flatMap escByte) =
      (inFrameState CMD_DATA (ax25Header dst_call dst_ssid src sssid ++ P), [], []) := by
    rw [runReader_flatMap_escByte (ax25Header dst_call dst_ssid src sssid ++ P)
          (inFrameState CMD_DATA []) rfl rfl rfl hbound]
    rfl
  have hdrop : (ax25Header dst_call dst_ssid src sssid ++ P).drop 16 = P := by
    rw [← hHlen]; exact List.drop_left _ _
  have hgt : HEADER_SIZE <
      (inFrameState CMD_DATA (ax25Header dst_call dst_ssid src sssid ++ P)).data_buffer.length := by
    simp only [inFrameState, startState, List.length_append, hHlen, HEADER_SIZE]
    have := List.length_pos.mpr hne
    omega
  have hfinal : readByte (inFrameState CMD_DATA (ax25Header dst_call dst_ssid src sssid ++ P)) FEND =
      ({ inFrameState CMD_DATA (ax25Header dst_call dst_ssid src sssid ++ P) with in_frame := false },
       [P], []) := by
    rw [readByte]
    rw [if_pos ⟨rfl, rfl, rfl⟩, if_pos hgt]
    rw [show (inFrameState CMD_DATA (ax25Header dst_call dst_ssid src sssid ++ P)).data_buffer =
          ax25Header dst_call dst_ssid src sssid ++ P from rfl]
    rw [show HEADER_SIZE = 16 from rfl, hdrop]
    rfl
  have hunfold : kissFrame src sssid P =
      FEND :: CMD_DATA :: (escape (ax25Header dst_call dst_ssid src sssid ++ P) ++ [FEND]) := rfl
  rw [hunfold, runReader_cons, hstep1]
  simp only [runReader_cons, hstep2]
  rw [runReader_append, escape_eq_flatMap, hmid]
  simp only [runReader_cons, runReader_nil, hfinal]
  simp

theorem c1_roundtrip_amended_witness :
    ([104, 105] : List Nat) ≠ [] ∧ ([104, 105] : List Nat).length ≤ HW_MTU ∧
    (runReader startState (kissFrame [0x41, 0x42, 0x43] 5 [104, 105])).2.1 = [[104, 105]] :=
  ⟨by decide, by decide,
   c1_roundtrip_amended [0x41, 0x42, 0x43] 5 [104, 105] (by decide) (by decide)⟩

/-- C1 counterexample: for the 565-byte payload `replicate 565 7` the
decoded buffer exceeds the 16-byte header size, yet the single delivery is
the payload truncated to 564 bytes, not the payload itself: the reader's
`HW_MTU + HEADER_SIZE` cap silently drops the final byte. -/
theorem c1_counterexample :
    (runReader startState (kissFrame [0x41, 0x42, 0x43] 5 (List.replicate 565 7))).2.1
        ≠ [List.replicate 565 7] ∧
    (runReader startState (kissFrame [0x41, 0x42, 0x43] 5 (List.replicate 565 7))).2.1
        = [List.replicate 564 7] := by
  have hHlen : (ax25Header dst_call dst_ssid [0x41, 0x42, 0x43] 5).length = 16 :=
    ax25Header_length _ _ _ _
  have hcleanH : ∀ b ∈ ax25Header dst_call dst_ssid [0x41, 0x42, 0x43] 5,
      b ≠ FEND ∧ b ≠ FESC := by decide
  have hclean7 : ∀ b ∈ (List.replicate 565 7 : List Nat), b ≠ FEND ∧ b ≠ FESC := by
    intro b hb
    rw [List.eq_of_mem_replicate hb]
    decide
  have hclean : ∀ b ∈ ax25Header dst_call dst_ssid [0x41, 0x42, 0x43] 5 ++
      List.replicate 565 7, b ≠ FEND ∧ b ≠ FESC := by
    intro b hb
    rcases List.mem_append.mp hb with h | h
    · exact hcleanH b h
    · exact hclean7 b h
  have hclean2 : ∀ b ∈ ax25Header dst_call dst_ssid [0x41, 0x42, 0x43] 5 ++
      List.replicate 564 7, b ≠ FEND ∧ b ≠ FESC := by
    intro b hb
    rcases List.mem_append.mp hb with h | h
    · exact hcleanH b h
    · rw [List.eq_of_mem_replicate h]; decide
  have hesc : escape (ax25Header dst_call dst_ssid [0x41, 0x42, 0x43] 5 ++
      List.replicate 565 7) =
      ax25Header dst_call dst_ssid [0x41, 0x42, 0x43] 5 ++ List.replicate 565 7 := by
    rw [escape_eq_flatMap, flatMap_escByte_eq_self _ hclean]
  have hsplit : ax25Header dst_call dst_ssid [0x41, 0x42, 0x43] 5 ++ List.replicate 565 7 =
      (ax25Header dst_call dst_ssid [0x41, 0x42, 0x43] 5 ++ List.replicate 564 7) ++ [7] := by
    rw [show (565 : Nat) = 564 + 1 from rfl, List.replicate_add,
        show (List.replicate 1 7 : List Nat) = [7] from rfl, List.append_assoc]
  have hstep1 : readByte startState FEND = (inFrameState CMD_UNKNOWN [], [], []) := by
    decide
  have hstep2 : readByte (inFrameState CMD_UNKNOWN []) CMD_DATA =
      (inFrameState CMD_DATA [], [], []) := by decide
  have hbound : (inFrameState CMD_DATA []).data_buffer.length +
      (ax25Header dst_call dst_ssid [0x41, 0x42, 0x43] 5 ++ List.replicate 564 7).length ≤
      HW_MTU + HEADER_SIZE := by
    simp only [inFrameState, startState, List.length_nil, List.length_append,
               List.length_replicate, hHlen, HW_MTU, HEADER_SIZE]
    omega
  have hmid0 := runReader_flatMap_escByte
      (ax25Header dst_call dst_ssid [0x41, 0x42, 0x43] 5 ++ List.replicate 564 7)
      (inFrameState CMD_DATA []) rfl rfl rfl hbound
  have hmid : runReader (inFrameState CMD_DATA [])
      (ax25Header dst_call dst_ssid [0x41, 0x42, 0x43] 5 ++ List.replicate 564 7) =
      (inFrameState CMD_DATA
        (ax25Header dst_call dst_ssid [0x41, 0x42, 0x43] 5 ++ List.replicate 564 7),
       [], []) := by
    rw [flatMap_escByte_eq_self _ hclean2] at hmid0
    exact hmid0.trans (by rfl)
  have hfull : ¬((inFrameState CMD_DATA
      (ax25Header dst_call dst_ssid [0x41, 0x42, 0x43] 5 ++
        List.replicate 564 7)).data_buffer.length < HW_MTU + HEADER_SIZE) := by
    simp only [inFrameState, startState, List.length_append, List.length_replicate,
               hHlen, HW_MTU, HEADER_SIZE]
    omega
  have hskip := runReader_full_buffer [7]
      (inFrameState CMD_DATA
        (ax25Header dst_call dst_ssid [0x41, 0x42, 0x43] 5 ++ List.replicate 564 7))
      rfl (by decide) hfull
  have hdrop : (ax25Header dst_call dst_ssid [0x41, 0x42, 0x43] 5 ++
      List.replicate 564 7).drop 16 = List.replicate 564 7 := by
    rw [← hHlen]; exact List.drop_left _ _
  have hgt : HEADER_SIZE < (inFrameState CMD_DATA
      (ax25Header dst_call dst_ssid [0x41, 0x42, 0x43] 5 ++
        List.replicate 564 7)).data_buffer.length := by
    simp only [inFrameState, startState, List.length_append, List.length_replicate,
               hHlen, HEADER_SIZE]
    omega
  have hfinal : readByte (inFrameState CMD_DATA
      (ax25Header dst_call dst_ssid [0x41, 0x42, 0x43] 5 ++ List.replicate 564 7)) FEND =
      ({ inFrameState CMD_DATA
          (ax25Header dst_call dst_ssid [0x41, 0x42, 0x43] 5 ++ List.replicate 564 7)
          with in_frame := false },
       [List.replicate 564 7], []) := by
    rw [readByte]
    rw [if_pos ⟨rfl, rfl, rfl⟩, if_pos hgt]
    rw [show (inFrameState CMD_DATA (ax25Header dst_call dst_ssid [0x41, 0x42, 0x43] 5 ++
          List.replicate 564 7)).data_buffer =
          ax25Header dst_call dst_ssid [0x41, 0x42, 0x43] 5 ++ List.replicate 564 7 from rfl]
    rw [show HEADER_SIZE = 16 from rfl, hdrop]
    rfl
  have hrun : (runReader startState
      (kissFrame [0x41, 0x42, 0x43] 5 (List.replicate 565 7))).2.1
      = [List.replicate 564 7] := by
    have hunfold : kissFrame [0x41, 0x42, 0x43] 5 (List.replicate 565 7) =
        FEND :: CMD_DATA :: (escape (ax25Header dst_call dst_ssid [0x41, 0x42, 0x43] 5 ++
          List.replicate 565 7) ++ [FEND]) := rfl
    rw [hunfold, hesc, hsplit]
    rw [runReader_cons, hstep1]
    simp only [runReader_cons, hstep2]
    rw [List.append_assoc]
    rw [runReader_append, hmid]
    simp only
    rw [runReader_append, hskip]
    simp only [runReader_cons, runReader_nil, hfinal]
    simp only [List.append_nil, List.nil_append]
  refine ⟨?_, hrun⟩
  rw [hrun]
  intro hcon
  have h1 : (List.replicate 564 7 : List Nat) = List.replicate 565 7 := by
    injection hcon
  have h2 := congrArg List.length h1
  rw [List.length_replicate, List.length_replicate] at h2
  exact absurd h2 (by omega)

/-- C2: the escape operation substitutes the escape byte (with escape +
transposed-escape) before the delimiter byte (with escape +
transposed-delimiter), and the framed output of a data frame is exactly one
delimiter byte at each end with no unescaped reserved byte in between. -/
theorem c2_escape_order_and_framing (src : List Nat) (sssid : Nat) (P : List Nat)
    (_hres : FEND ∈ P ∨ FESC ∈ P) :
    escape [FESC] = [FESC, TFESC] ∧ escape [FEND] = [FESC, TFEND] ∧
    ∃ mid, kissFrame src sssid P = FEND :: (mid ++ [FEND]) ∧
      FEND ∉ mid ∧ noUnescaped mid = true := by
  refine ⟨by decide, by decide,
    CMD_DATA :: escape (ax25Header dst_call dst_ssid src sssid ++ P), ?_, ?_, ?_⟩
  · simp [kissFrame]
  · intro hmem
    rcases List.mem_cons.mp hmem with h | h
    · exact absurd h (by decide)
    · exact fend_not_mem_escape _ h
  · have h0 : noUnescaped (CMD_DATA :: escape (ax25Header dst_call dst_ssid src sssid ++ P)) =
        noUnescaped (escape (ax25Header dst_call dst_ssid src sssid ++ P)) := by
      simp [noUnescaped, noUnescapedAux, CMD_DATA, FEND, FESC]
    rw [h0, noUnescaped_escape]

theorem c2_escape_order_and_framing_witness :
    (FEND ∈ ([FEND, 0x01] : List Nat) ∨ FESC ∈ ([FEND, 0x01] : List Nat)) ∧
    (escape [FESC] = [FESC, TFESC] ∧ escape [FEND] = [FESC, TFEND] ∧
     ∃ mid, kissFrame [0x41, 0x42, 0x43] 5 [FEND, 0x01] = FEND :: (mid ++ [FEND]) ∧
       FEND ∉ mid ∧ noUnescaped mid = true) :=
  ⟨by decide, c2_escape_order_and_framing [0x41, 0x42, 0x43] 5 [FEND, 0x01] (by decide)⟩

theorem encode_call_field_eq_spec (call : List Nat) (h : call.length ≤ 6) :
    encode_call_field call = callFieldFromSpec call := by
  rcases call with _ | ⟨a, _ | ⟨b, _ | ⟨c, _ | ⟨d, _ | ⟨e, _ | ⟨f, _ | ⟨g, rest⟩⟩⟩⟩⟩⟩⟩
  · rfl
  · rfl
  · rfl
  · rfl
  · rfl
  · rfl
  · rfl
  · simp at h

theorem ax25Header_eq_spec (dst src : List Nat) (d ss : Nat)
    (hd : dst.length ≤ 6) (hs : src.length ≤ 6) :
    ax25Header dst d src ss = headerFromSpec dst d src ss := by
  rw [ax25Header, headerFromSpec, encode_call_field_eq_spec _ hd,
      encode_call_field_eq_spec _ hs]

theorem callFieldFromSpec_length (call : List Nat) (h : call.length ≤ 6) :
    (callFieldFromSpec call).length = 6 := by
  simp [callFieldFromSpec]
  omega

/-- C3 counterexample: for callsign `"ABC"`, SSID 5, payload `"hi"`, the
built frame disagrees with the claim's header (pad byte = space shifted one
bit): the header actually prepended pads with the plain space byte `0x20`,
while the claim's header pads with `0x40`. -/
theorem c3_counterexample :
    kissFrame [0x41, 0x42, 0x43] 5 [104, 105] ≠
      FEND :: CMD_DATA ::
        escape (headerFromClaim dst_call dst_ssid [0x41, 0x42, 0x43] 5 ++ [104, 105]) ++
        [FEND] ∧
    (ax25Header dst_call dst_ssid [0x41, 0x42, 0x43] 5).getD 10 0 = 0x20 ∧
    (headerFromClaim dst_call dst_ssid [0x41, 0x42, 0x43] 5).getD 10 0 = 0x20 <<< 1 := by
  decide

/-- C3 (amended): for every valid configuration (callsign of 3-6 characters,
SSID 0-15) the link-layer header prepended to an outbound data frame is
exactly 16 bytes: destination then source as 6 shifted character codes with
pad positions equal to the plain (unshifted) space byte `0x20`, SSID byte
`0x60 ||| (ssid <<< 1)` for destination and `0x60 ||| (ssid <<< 1) ||| 1`
for source, then control `0x03` and protocol id `0xF0`. -/
theorem c3_header_amended (src : List Nat) (sssid : Nat) (P : List Nat)
    (_h3 : 3 ≤ src.length) (h6 : src.length ≤ 6) (_hs : sssid ≤ 15) :
    kissFrame src sssid P =
      FEND :: CMD_DATA ::
        escape (headerFromSpec dst_call dst_ssid src sssid ++ P) ++ [FEND] ∧
    (headerFromSpec dst_call dst_ssid src sssid).length = 16 := by
  constructor
  · rw [kissFrame, ax25Header_eq_spec dst_call src dst_ssid sssid (by decide) h6]
  · rw [headerFromSpec]
    simp [callFieldFromSpec_length dst_call (by decide), callFieldFromSpec_length src h6]

theorem c3_header_amended_witness :
    (3 ≤ ([0x41, 0x42, 0x43] : List Nat).length ∧
     ([0x41, 0x42, 0x43] : List Nat).length ≤ 6 ∧ (5 : Nat) ≤ 15) ∧
    (kissFrame [0x41, 0x42, 0x43] 5 [104, 105] =
      FEND :: CMD_DATA ::
        escape (headerFromSpec dst_call dst_ssid [0x41, 0x42, 0x43] 5 ++ [104, 105]) ++
        [FEND] ∧
     (headerFromSpec dst_call dst_ssid [0x41, 0x42, 0x43] 5).length = 16) :=
  ⟨⟨by decide, by decide, by decide⟩,
   c3_header_amended [0x41, 0x42, 0x43] 5 [104, 105] (by decide) (by decide) (by decide)⟩

/-- C4 counterexample: a ready-signal command frame carrying no payload
bytes (delimiter, `0x0F`, delimiter) leaves the transmit queue untouched
and writes nothing: the command byte itself never reaches the
queue-draining branch, so it does not drain exactly one queued payload. -/
theorem c4_counterexample :
    (runReader (queuedState [[1], [2]]) [FEND, 0x0F, FEND]).1.packet_queue = [[1], [2]] ∧
    (runReader (queuedState [[1], [2]]) [FEND, 0x0F, FEND]).2.2 = [] ∧
    ([[1], [2]] : List (List Nat)) ≠ [[2]] := by
  decide

/-- C4 (amended): each byte following the ready command byte inside a ready
frame triggers one queue drain; a ready frame carrying one payload byte
(delimiter, `0x0F`, `0x01`, delimiter) drains exactly one queued payload,
and successive such frames drain the queue in FIFO order (oldest first),
writing the popped payloads as data frames. -/
theorem c4_ready_drain_amended (a b : List Nat) (rest : List (List Nat)) :
    (runReader (queuedState (a :: b :: rest))
        [FEND, 0x0F, 0x01, FEND, FEND, 0x0F, 0x01, FEND]).1.packet_queue = rest ∧
    (runReader (queuedState (a :: b :: rest))
        [FEND, 0x0F, 0x01, FEND, FEND, 0x0F, 0x01, FEND]).2.2 =
      [kissFrame [0x41, 0x42, 0x43] 0 a, kissFrame [0x41, 0x42, 0x43] 0 b] ∧
    (runReader (queuedState (a :: b :: rest))
        [FEND, 0x0F, 0x01, FEND, FEND, 0x0F, 0x01, FEND]).2.1 = [] := by
  have h1 : ∀ q, readByte (queuedState q) FEND = (queuedInFrame CMD_UNKNOWN q, [], []) :=
    fun q => rfl
  have h2 : ∀ q, readByte (queuedInFrame CMD_UNKNOWN q) 0x0F =
      (queuedInFrame CMD_READY q, [], []) := fun q => rfl
  have h3 : ∀ (x : List Nat) (q : List (List Nat)),
      readByte (queuedInFrame CMD_READY (x :: q)) 0x01 =
      (queuedInFrame CMD_READY q, [], [kissFrame [0x41, 0x42, 0x43] 0 x]) := by
    intro x q
    have hpq : process_queue wrFull (queuedInFrame CMD_READY (x :: q)) =
        (queuedInFrame CMD_READY q, [kissFrame [0x41, 0x42, 0x43] 0 x], false) := by
      simp only [process_queue, queuedInFrame, queuedState, startState]
      simp only [process_outgoing, wrFull]
      simp
    simp only [readByte, queuedInFrame, queuedState, startState] at hpq ⊢
    simp only [hpq]
    simp [CMD_READY, CMD_UNKNOWN, CMD_DATA, FEND, FESC, HW_MTU, HEADER_SIZE]
  have h4 : ∀ q, readByte (queuedInFrame CMD_READY q) FEND =
      (queuedInFrame CMD_UNKNOWN q, [], []) := fun q => rfl
  have h5 : ∀ q, readByte (queuedInFrame CMD_UNKNOWN q) FEND =
      (queuedInFrame CMD_UNKNOWN q, [], []) := fun q => rfl
  simp only [runReader_cons, runReader_nil, h1, h2, h3, h4, h5]
  simp [queuedInFrame, queuedState, startState]

theorem process_outgoing_state_no_fc (t : IfaceState) (data : List Nat) (wr : List Nat → Nat)
    (hfc : t.flow_control = false) (hir : t.interface_ready = true) :
    (process_outgoing wr t data).1 = t := by
  by_cases ho : t.online = true
  · by_cases hw : wr (kissFrame t.src_call t.src_ssid data) =
        (kissFrame t.src_call t.src_ssid data).length
    · simp [process_outgoing, ho, hir, hfc, hw]
    · simp [process_outgoing, ho, hir, hfc, hw]
  · simp [process_outgoing, ho]

theorem readByte_preserves_fc_inv (t : IfaceState) (b : Nat)
    (hfc : t.flow_control = false) (hir : t.interface_ready = true)
    (hq : t.packet_queue = []) :
    (readByte t b).1.flow_control = false ∧ (readByte t b).1.interface_ready = true ∧
    (readByte t b).1.packet_queue = [] := by
  have hpq : process_queue wrFull t = ({ t with interface_ready := true }, [], false) := by
    simp [process_queue, hq]
  simp only [readByte]
  split_ifs <;> simp_all

theorem process_queue_preserves_fc_inv (t : IfaceState) (wr : List Nat → Nat)
    (hq : t.packet_queue = []) :
    (process_queue wr t).1 = { t with interface_ready := true } := by
  simp [process_queue, hq]

theorem timeoutCheck_preserves_fc_inv (t : IfaceState) (a e : Nat)
    (hfc : t.flow_control = false) (hir : t.interface_ready = true)
    (hq : t.packet_queue = []) :
    (timeoutCheck t a e).flow_control = false ∧ (timeoutCheck t a e).interface_ready = true ∧
    (timeoutCheck t a e).packet_queue = [] := by
  simp only [timeoutCheck]
  split_ifs <;> simp_all

theorem reach_fc_inv (s : IfaceState) (h : Reach startState s) :
    s.flow_control = false ∧ s.interface_ready = true ∧ s.packet_queue = [] := by
  unfold Reach at h
  induction h with
  | refl => exact ⟨rfl, rfl, rfl⟩
  | tail hr hstep ih =>
    obtain ⟨hfc, hir, hq⟩ := ih
    cases hstep with
    | outgoing data wr =>
      rw [process_outgoing_state_no_fc _ data wr hfc hir]
      exact ⟨hfc, hir, hq⟩
    | rcv b => exact readByte_preserves_fc_inv _ b hfc hir hq
    | drain wr =>
      rw [process_queue_preserves_fc_inv _ wr hq]
      exact ⟨hfc, rfl, hq⟩
    | idleTimeout t e => exact timeoutCheck_preserves_fc_inv _ t e hfc hir hq
    | goOffline => exact ⟨hfc, hir, hq⟩
    | reconnect => exact ⟨hfc, rfl, hq⟩

/-- C5: with flow control disabled, in every state reachable from the
started interface the ready flag is true and the queue is empty, and while
online every `process_outgoing` call writes its frame directly to the
transport, leaving the transmit queue unchanged (nothing is queued). -/
theorem c5_flow_control_disabled_invariant (s : IfaceState) (h : Reach startState s) :
    s.interface_ready = true ∧ s.packet_queue = [] ∧
    ∀ (wr : List Nat → Nat) (data : List Nat), s.online = true →
      (process_outgoing wr s data).1.packet_queue = s.packet_queue ∧
      (process_outgoing wr s data).2.1 = [kissFrame s.src_call s.src_ssid data] := by
  obtain ⟨hfc, hir, hq⟩ := reach_fc_inv s h
  refine ⟨hir, hq, ?_⟩
  intro wr data ho
  constructor
  · rw [process_outgoing_state_no_fc _ data wr hfc hir]
  · by_cases hw : wr (kissFrame s.src_call s.src_ssid data) =
        (kissFrame s.src_call s.src_ssid data).length
    · simp [process_outgoing, ho, hir, hfc, hw]
    · simp [process_outgoing, ho, hir, hfc, hw]

theorem c5_flow_control_disabled_invariant_witness :
    Reach startState startState ∧
    (startState.interface_ready = true ∧ startState.packet_queue = [] ∧
     ∀ (wr : List Nat → Nat) (data : List Nat), startState.online = true →
       (process_outgoing wr startState data).1.packet_queue = startState.packet_queue ∧
       (process_outgoing wr startState data).2.1 =
         [kissFrame startState.src_call startState.src_ssid data]) :=
  ⟨Relation.ReflTransGen.refl,
   c5_flow_control_disabled_invariant startState Relation.ReflTransGen.refl⟩

/-- C6: every configuration whose SSID is outside 0-15 (including the
default -1 and the value 16) or whose callsign length is outside 3-6
characters is rejected with a configuration error raised before the
transport open is attempted, leaving the transport unopened. -/
theorem c6_invalid_config_rejected (has_port : Bool) (callsign : List Nat) (ssid : Int)
    (h : ssid < 0 ∨ 15 < ssid ∨ callsign.length < 3 ∨ 6 < callsign.length) :
    (ax25_init has_port callsign ssid).error.isSome = true ∧
    (ax25_init has_port callsign ssid).open_attempted = false := by
  unfold ax25_init
  split_ifs with h1 h2 h3
  · exact ⟨rfl, rfl⟩
  · exact ⟨rfl, rfl⟩
  · exact ⟨rfl, rfl⟩
  · exfalso
    push_neg at h2 h3
    rcases h with hs | hs | hc | hc
    · omega
    · omega
    · omega
    · omega

theorem c6_invalid_config_rejected_witness :
    ((16 : Int) < 0 ∨ (15 : Int) < 16 ∨ ([0x41, 0x42, 0x43] : List Nat).length < 3 ∨
      6 < ([0x41, 0x42, 0x43] : List Nat).length) ∧
    ((ax25_init true [0x41, 0x42, 0x43] 16).error.isSome = true ∧
     (ax25_init true [0x41, 0x42, 0x43] 16).open_attempted = false) :=
  ⟨by decide, c6_invalid_config_rejected true [0x41, 0x42, 0x43] 16 (by decide)⟩

/-- C7: when the reader is in-frame with the data command and receives a
delimiter byte, the frame is complete: the reader leaves the in-frame
state, the buffer is delivered with its first 16 bytes stripped exactly
when it is longer than 16 bytes, and a buffer of at most 16 bytes (in
particular an empty-payload frame) is silently discarded. -/
theorem c7_frame_complete (s : IfaceState)
    (hin : s.in_frame = true) (hcmd : s.command = CMD_DATA) :
    (readByte s FEND).1.in_frame = false ∧
    (HEADER_SIZE < s.data_buffer.length →
      (readByte s FEND).2.1 = [s.data_buffer.drop HEADER_SIZE]) ∧
    (s.data_buffer.length ≤ HEADER_SIZE → (readByte s FEND).2.1 = []) := by
  refine ⟨?_, ?_, ?_⟩
  · simp [readByte, hin, hcmd]
  · intro hgt; simp [readByte, hin, hcmd, hgt]
  · intro hle; simp [readByte, hin, hcmd, Nat.not_lt.mpr hle]

theorem c7_frame_complete_witness :
    ((inFrameState CMD_DATA (List.replicate 17 9)).in_frame = true ∧
     (inFrameState CMD_DATA (List.replicate 17 9)).command = CMD_DATA) ∧
    ((readByte (inFrameState CMD_DATA (List.replicate 17 9)) FEND).1.in_frame = false ∧
     (HEADER_SIZE < (inFrameState CMD_DATA (List.replicate 17 9)).data_buffer.length →
       (readByte (inFrameState CMD_DATA (List.replicate 17 9)) FEND).2.1 =
         [(inFrameState CMD_DATA (List.replicate 17 9)).data_buffer.drop HEADER_SIZE]) ∧
     ((inFrameState CMD_DATA (List.replicate 17 9)).data_buffer.length ≤ HEADER_SIZE →
       (readByte (inFrameState CMD_DATA (List.replicate 17 9)) FEND).2.1 = [])) :=
  ⟨⟨rfl, rfl⟩, c7_frame_complete (inFrameState CMD_DATA (List.replicate 17 9)) rfl rfl⟩

/-- C8: when bytes have accumulated in the buffer and no byte has arrived
for longer than the idle timeout (default 100 ms), the no-input reader step
discards the buffer and resets the reader to idle with command unknown and
the escape flag cleared; with an empty buffer the timeout never resets the
reader. -/
theorem c8_idle_timeout :
    (∀ (s : IfaceState) (elapsed : Nat), s.data_buffer ≠ [] → default_timeout < elapsed →
      timeoutCheck s default_timeout elapsed =
        { s with data_buffer := [], in_frame := false, command := CMD_UNKNOWN,
                 escFlag := false }) ∧
    (∀ (s : IfaceState) (t e : Nat), s.data_buffer = [] → timeoutCheck s t e = s) ∧
    default_timeout = 100 := by
  refine ⟨?_, ?_, rfl⟩
  · intro s elapsed hne hgt
    simp [timeoutCheck, List.length_pos.mpr hne, hgt]
  · intro s t e hemp
    simp [timeoutCheck, hemp]

theorem c8_idle_timeout_witness :
    ((inFrameState CMD_DATA [9]).data_buffer ≠ [] ∧ default_timeout < 101 ∧
     timeoutCheck (inFrameState CMD_DATA [9]) default_timeout 101 =
       { inFrameState CMD_DATA [9] with data_buffer := [], in_frame := false, command := CMD_UNKNOWN, escFlag := false }) ∧
    (startState.data_buffer = [] ∧ timeoutCheck startState default_timeout 500 = startState) :=
  ⟨⟨by decide, by decide,
    c8_idle_timeout.1 (inFrameState CMD_DATA [9]) 101 (by decide) (by decide)⟩,
   ⟨rfl, c8_idle_timeout.2.1 startState default_timeout 500 rfl⟩⟩

/-- C9: when the transport write returns fewer bytes than the framed data's
length, `process_outgoing` raises an IOError for that call and the transmit
queue is left unchanged (the payload is not re-queued). -/
theorem c9_short_write_error (s : IfaceState) (data : List Nat) (wr : List Nat → Nat)
    (ho : s.online = true) (hir : s.interface_ready = true)
    (hw : wr (kissFrame s.src_call s.src_ssid data) ≠
      (kissFrame s.src_call s.src_ssid data).length) :
    (process_outgoing wr s data).2.2 = true ∧
    (process_outgoing wr s data).1.packet_queue = s.packet_queue := by
  by_cases hfc : s.flow_control = true
  · simp [process_outgoing, ho, hir, hw, hfc]
  · simp [process_outgoing, ho, hir, hw, hfc]

theorem c9_short_write_error_witness :
    (startState.online = true ∧ startState.interface_ready = true ∧
     (fun _ : List Nat => (0 : Nat)) (kissFrame startState.src_call startState.src_ssid [1]) ≠
       (kissFrame startState.src_call startState.src_ssid [1]).length) ∧
    ((process_outgoing (fun _ => 0) startState [1]).2.2 = true ∧
     (process_outgoing (fun _ => 0) startState [1]).1.packet_queue =
       startState.packet_queue) :=
  ⟨⟨rfl, rfl, by decide⟩,
   c9_short_write_error startState [1] (fun _ => 0) rfl rfl (by decide)⟩

/-- C10 counterexample: after the byte sequence delimiter, data command,
escape byte, delimiter, delimiter, the reader has just started a new frame
(buffer cleared, command unknown) yet the escape flag is still set; feeding
the continuation data command, transposed-delimiter, delimiter then stores
the first payload byte of the new frame as an unescaped delimiter byte
(0xC0) instead of the transposed byte itself (0xDC). -/
theorem c10_counterexample :
    (runReader startState [FEND, CMD_DATA, FESC, FEND, FEND]).1.in_frame = true ∧
    (runReader startState [FEND, CMD_DATA, FESC, FEND, FEND]).1.command = CMD_UNKNOWN ∧
    (runReader startState [FEND, CMD_DATA, FESC, FEND, FEND]).1.data_buffer = [] ∧
    (runReader startState [FEND, CMD_DATA, FESC, FEND, FEND]).1.escFlag = true ∧
    (runReader startState [FEND, CMD_DATA, FESC, FEND, FEND, CMD_DATA, TFEND, FEND]).2.1 = [] ∧
    (runReader startState
      [FEND, CMD_DATA, FESC, FEND, FEND, CMD_DATA, TFEND, FEND]).1.data_buffer = [FEND] := by
  decide

/-- C10 (amended): a delimiter byte received while not completing a data
frame starts a new frame, clearing the buffer and setting the command to
unknown, but leaves the escape flag unchanged; in particular a delimiter
arriving immediately after an escape byte carries the set escape flag
across the frame boundary, so the first stored payload byte of the next
frame can be interpreted as an escaped byte. -/
theorem c10_frame_start_amended (s : IfaceState)
    (hnc : ¬(s.in_frame = true ∧ s.command = CMD_DATA)) :
    readByte s FEND =
      ({ s with in_frame := true, command := CMD_UNKNOWN, data_buffer := [] }, [], []) ∧
    (readByte s FEND).1.escFlag = s.escFlag := by
  have hcond : ¬(s.in_frame = true ∧ FEND = FEND ∧ s.command = CMD_DATA) := by
    intro hc
    exact hnc ⟨hc.1, hc.2.2⟩
  have h1 : readByte s FEND =
      ({ s with in_frame := true, command := CMD_UNKNOWN, data_buffer := [] }, [], []) := by
    rw [readByte, if_neg hcond, if_pos rfl]
  exact ⟨h1, by rw [h1]⟩

theorem c10_frame_start_amended_witness :
    ¬(({ startState with escFlag := true } : IfaceState).in_frame = true ∧
      ({ startState with escFlag := true } : IfaceState).command = CMD_DATA) ∧
    (readByte { startState with escFlag := true } FEND =
      ({ { startState with escFlag := true } with in_frame := true, command := CMD_UNKNOWN, data_buffer := [] }, [], []) ∧
     (readByte { startState with escFlag := true } FEND).1.escFlag =
       ({ startState with escFlag := true } : IfaceState).escFlag) :=
  ⟨by decide, c10_frame_start_amended { startState with escFlag := true } (by decide)⟩
